import Mathlib

/-!
# Verification of the authentication-flow coordinator (`AuthService`)

A shallow embedding of `src/api/auth/auth.service.ts` and of the password
policy decorator `IsPassword` from the shared decorator module.  External
collaborators (the Cognito identity provider and the Prisma user store) are
modelled as explicit inputs: provider responses are passed in as `Except`
values or response-producing functions, and the user store is a list of
records threaded through each operation.  Each operation additionally
reports its side effects (provider calls issued, records inserted) so that
"exactly one call / no insert on failure" style properties are statable.
-/

namespace AuthService

/-- `UserRegistrationStepEnum` from the Prisma client. -/
inductive UserRegistrationStepEnum where
  | PENDING_CONFIRMATION
  | DONE
deriving DecidableEq, Repr

/-- A row of the local user relation: email, registration step, and the
subject identifier (`sub`) issued by the identity provider. -/
structure UserRecord where
  email : String
  registrationStep : UserRegistrationStepEnum
  sub : Option String
deriving DecidableEq, Repr

/-- Input DTO for `signup`. -/
structure SignupInput where
  email : String
  password : String
deriving DecidableEq, Repr

/-- Output of the provider's `SignUpCommand`: whether the account is already
confirmed, and the subject identifier assigned to it. -/
structure SignUpCommandOutput where
  UserConfirmed : Bool
  UserSub : Option String
deriving DecidableEq, Repr

/-- An error raised by an identity-provider call: an error name (the
exception class name) and a message. -/
structure ProviderError where
  name : String
  message : String
deriving DecidableEq, Repr

/-- A JavaScript `Promise` holding its eventual result.  `signup` uses a
promise *object* in a boolean position without awaiting it. -/
structure JSPromise (α : Type) where
  result : α

/-- JavaScript truthiness of a `Promise` value: a `Promise` is an object,
and every object is truthy, regardless of its eventual result. -/
def JSPromise.toBool {α : Type} (_p : JSPromise α) : Bool := true

/-- `_checkIfEmailExists`: counts user rows with the given email and
returns whether the count is positive. -/
def checkIfEmailExists (store : List UserRecord) (email : String) : Bool :=
  (store.filter (fun u => u.email == email)).length > 0

/-- `_createNewUser`, insertion part: the record written by
`prisma.user.create` after a successful `SignUpCommand`.  The source builds
`registrationStep` with the ternary
`resp.UserConfirmed ? PENDING_CONFIRMATION : DONE`. -/
def createNewUser (input : SignupInput) (resp : SignUpCommandOutput) : UserRecord :=
  { email := input.email
    registrationStep :=
      if resp.UserConfirmed then
        UserRegistrationStepEnum.PENDING_CONFIRMATION
      else
        UserRegistrationStepEnum.DONE
    sub := resp.UserSub }

/-- Outcome of a `signup` call. -/
inductive SignupOutcome where
  | duplicateEmail
  | badRequest (message : String)
  | ok
deriving DecidableEq, Repr

/-- Side effects of a `signup` call: how many `SignUpCommand` calls were
issued to the provider, and which rows were inserted into the store. -/
structure SignupEffects where
  createAccountCalls : Nat
  insertedRecords : List UserRecord
deriving DecidableEq, Repr

/-- `signup`.  The guard is the source's
`if (this._checkIfEmailExists(input.email))`: the asynchronous call is not
awaited, so the condition is the truthiness of the promise object itself.
If the guard ever fell through, `_createNewUser` would issue one
`SignUpCommand` (its result is the `signUpResult` input) and, on success,
perform one insert; a provider error is caught and rethrown as a
`BadRequestException` with the provider's message. -/
def signup (store : List UserRecord)
    (signUpResult : Except ProviderError SignUpCommandOutput)
    (input : SignupInput) : SignupOutcome × SignupEffects :=
  if (JSPromise.mk (checkIfEmailExists store input.email)).toBool then
    (SignupOutcome.duplicateEmail, ⟨0, []⟩)
  else
    match signUpResult with
    | Except.ok resp =>
        (SignupOutcome.ok, ⟨1, [createNewUser input resp]⟩)
    | Except.error e =>
        (SignupOutcome.badRequest e.message, ⟨1, []⟩)

/-- Input DTO for `confirmSignup`. -/
structure ConfirmSignupInput where
  email : String
  code : String
deriving DecidableEq, Repr

/-- `_updateUserAfterSignupConfirmation`: `prisma.user.update` keyed on the
email, setting `registrationStep` to `DONE`.  Prisma's `update` rejects
(throws) when no row matches the `where` clause; that rejection is modelled
as the `Except.error` branch carrying Prisma's message. -/
def updateUserAfterSignupConfirmation (store : List UserRecord) (email : String) :
    Except String (List UserRecord) :=
  if store.any (fun u => u.email == email) then
    Except.ok (store.map fun u =>
      if u.email == email then
        { u with registrationStep := UserRegistrationStepEnum.DONE }
      else u)
  else
    Except.error "An operation failed because it depends on one or more records that were required but not found."

/-- Outcome of a `confirmSignup` call.  The source wraps both awaited steps
in one try/catch whose handler `return`s an `InvalidUpdateUserException`
value instead of throwing it; `raised` is in the type so that "the call
resolves rather than raising" is statable, and no execution path of
`confirmSignup` produces it. -/
inductive ConfirmSignupOutcome where
  | ok
  | returnedError (message : String)
  | raised (message : String)
deriving DecidableEq, Repr

/-- `confirmSignup`: await the provider's `ConfirmSignUpCommand` (its result
is the `confirmResult` input), then await the local update; any failure of
either step is caught and the exception value is *returned*. -/
def confirmSignup (store : List UserRecord)
    (confirmResult : Except ProviderError Unit)
    (input : ConfirmSignupInput) : ConfirmSignupOutcome × List UserRecord :=
  match confirmResult with
  | Except.error e => (ConfirmSignupOutcome.returnedError e.message, store)
  | Except.ok _ =>
      match updateUserAfterSignupConfirmation store input.email with
      | Except.ok newStore => (ConfirmSignupOutcome.ok, newStore)
      | Except.error msg => (ConfirmSignupOutcome.returnedError msg, store)

/-- The provider's challenge names (`ChallengeNameType` in the SDK). -/
inductive ChallengeNameType where
  | SMS_MFA
  | SOFTWARE_TOKEN_MFA
  | SELECT_MFA_TYPE
  | MFA_SETUP
  | PASSWORD_VERIFIER
  | CUSTOM_CHALLENGE
  | DEVICE_SRP_AUTH
  | DEVICE_PASSWORD_VERIFIER
  | ADMIN_NO_SRP_AUTH
  | NEW_PASSWORD_REQUIRED
deriving DecidableEq, Repr

/-- Provider-issued authentication tokens (`AuthenticationResultType`). -/
structure AuthenticationResultType where
  AccessToken : Option String
  IdToken : Option String
  RefreshToken : Option String
  ExpiresIn : Option Nat
deriving DecidableEq, Repr

/-- Output of the provider's `InitiateAuthCommand`. -/
structure InitiateAuthCommandOutput where
  ChallengeName : Option ChallengeNameType
  Session : Option String
  AuthenticationResult : Option AuthenticationResultType
deriving DecidableEq, Repr

/-- Output of the provider's `AssociateSoftwareTokenCommand`. -/
structure AssociateSoftwareTokenCommandOutput where
  Session : Option String
  SecretCode : Option String
deriving DecidableEq, Repr

/-- The object `_handleLoginCommandResponse` returns.  In the source the
`NEW_PASSWORD_REQUIRED` and default branches return objects without a
`SecretCode` property; that absence is `SecretCode = none`. -/
structure LoginChallengeResult where
  ChallengeName : Option ChallengeNameType
  Session : Option String
  SecretCode : Option String
deriving DecidableEq, Repr

/-- `_handleLoginCommandResponse`.  `assoc` is the provider's behaviour for
`AssociateSoftwareTokenCommand` as a function of the session passed in
(`_sendSetupMFACommand(resp.Session)`); the second component records the
session argument of each associate-MFA-token call that was issued. -/
def handleLoginCommandResponse
    (assoc : Option String → AssociateSoftwareTokenCommandOutput)
    (resp : InitiateAuthCommandOutput) :
    LoginChallengeResult × List (Option String) :=
  match resp.ChallengeName with
  | some ChallengeNameType.NEW_PASSWORD_REQUIRED =>
      ({ ChallengeName := some ChallengeNameType.NEW_PASSWORD_REQUIRED
         Session := resp.Session
         SecretCode := none }, [])
  | some ChallengeNameType.MFA_SETUP =>
      let res := assoc resp.Session
      ({ ChallengeName := some ChallengeNameType.MFA_SETUP
         Session := res.Session
         SecretCode := res.SecretCode }, [resp.Session])
  | c =>
      ({ ChallengeName := c, Session := resp.Session, SecretCode := none }, [])

/-- Outcome of a `login` call. -/
inductive LoginOutcome where
  | ok (result : LoginChallengeResult)
  | loginException (message : String)
deriving DecidableEq, Repr

/-- `login`: send the `InitiateAuthCommand` (its result is the
`loginResult` input) and dispatch on the challenge; a provider error is
caught and rethrown as `LoginUserException` with the provider's message. -/
def login (assoc : Option String → AssociateSoftwareTokenCommandOutput)
    (loginResult : Except ProviderError InitiateAuthCommandOutput) :
    LoginOutcome × List (Option String) :=
  match loginResult with
  | Except.ok resp =>
      let r := handleLoginCommandResponse assoc resp
      (LoginOutcome.ok r.1, r.2)
  | Except.error e => (LoginOutcome.loginException e.message, [])

/-- Output of the provider's `RespondToAuthChallengeCommand`. -/
structure RespondToAuthChallengeCommandOutput where
  ChallengeName : Option ChallengeNameType
  Session : Option String
  AuthenticationResult : Option AuthenticationResultType
deriving DecidableEq, Repr

/-- Outcome of a `confirmLogin` call: either the `AuthenticationResult`
component of a successful response, or a thrown `BadRequestException`
carrying a message and an error name, or the original provider error
rethrown verbatim. -/
inductive ConfirmLoginOutcome where
  | ok (result : Option AuthenticationResultType)
  | badRequest (message : String) (name : String)
  | rethrown (e : ProviderError)
deriving DecidableEq, Repr

/-- `confirmLogin`: on success return `res.AuthenticationResult`; on error
reclassify `CodeMismatchException` / `ExpiredCodeException` and
`NotAuthorizedException`, and rethrow anything else unchanged. -/
def confirmLogin
    (callResult : Except ProviderError RespondToAuthChallengeCommandOutput) :
    ConfirmLoginOutcome :=
  match callResult with
  | Except.ok res => ConfirmLoginOutcome.ok res.AuthenticationResult
  | Except.error error =>
      if error.name == "CodeMismatchException" || error.name == "ExpiredCodeException" then
        ConfirmLoginOutcome.badRequest "Invalid code, please try again" "CodeMismatchException"
      else if error.name == "NotAuthorizedException" then
        ConfirmLoginOutcome.badRequest "Session expired, please try again" "NotAuthorizedException"
      else
        ConfirmLoginOutcome.rethrown error

/-- `forgotPassword`: await the provider's `ForgotPasswordCommand` (its
result is the `callResult` input), discarding the response; the catch
block rethrows the caught error unchanged. -/
def forgotPassword
    (callResult : Except ProviderError Unit) : Except ProviderError Unit :=
  match callResult with
  | Except.ok r => Except.ok r
  | Except.error e => Except.error e

/-- `refreshToken`: return the awaited result of the refresh
`InitiateAuthCommand`; the catch block rethrows the caught error
unchanged. -/
def refreshToken
    (callResult : Except ProviderError InitiateAuthCommandOutput) :
    Except ProviderError InitiateAuthCommandOutput :=
  match callResult with
  | Except.ok r => Except.ok r
  | Except.error e => Except.error e

end AuthService

namespace PasswordPolicy

/-- Characters not matched by `.` in a JavaScript regular expression
without the `s` flag: the line terminators. -/
def lineTerminator (c : Char) : Bool :=
  c = '\n' || c = '\r' || c = '\u2028' || c = '\u2029'

/-- The `[a-z]` character class. -/
def isLowerAscii (c : Char) : Bool := 'a' ≤ c && c ≤ 'z'

/-- The `[A-Z]` character class. -/
def isUpperAscii (c : Char) : Bool := 'A' ≤ c && c ≤ 'Z'

/-- The `[0-9]` character class. -/
def isDigitAscii (c : Char) : Bool := '0' ≤ c && c ≤ '9'

/-- The symbol class of the pattern, `[!@#$%^&*?()\-_,=+]`. -/
def isPasswordSymbol (c : Char) : Bool :=
  [ '!', '@', '#', '$', '%', '^', '&', '*', '?',
    '(', ')', '-', '_', ',', '=', '+' ].contains c

/-- Semantics of a lookahead `(?=.*[X])` anchored at the start of the
string: some character satisfying `p` occurs, with every character before
it matchable by `.` (not a line terminator). -/
def lookaheadHas (p : Char → Bool) : List Char → Bool
  | [] => false
  | c :: cs => p c || (!lineTerminator c && lookaheadHas p cs)

/-- Semantics of the lookahead `(?=.\x7b8,\x7d)` anchored at the start of
the string: at least the first eight characters exist and are matchable by
`.`. -/
def lookaheadLen8 (cs : List Char) : Bool :=
  8 ≤ (cs.takeWhile (fun c => !lineTerminator c)).length

/-- The regular expression of the `Matches` decorator. -/
def matchesPasswordPattern (s : String) : Bool :=
  lookaheadHas isLowerAscii s.data &&
  lookaheadHas isUpperAscii s.data &&
  lookaheadHas isDigitAscii s.data &&
  lookaheadHas isPasswordSymbol s.data &&
  lookaheadLen8 s.data

/-- `IsPassword`: the conjunction of the decorators it applies —
`IsNotEmpty`, `MinLength 8` and `Matches` of the pattern above. -/
def IsPassword (s : String) : Bool :=
  (!(s == "")) && (8 ≤ s.length) && matchesPasswordPattern s

/-- The password policy as the specification words it: non-empty, at
least eight characters, and containing at least one lowercase letter, one
uppercase letter, one digit and one symbol of the set, anywhere in the
string. -/
def passwordSpecAccepts (s : String) : Bool :=
  (!(s == "")) && (8 ≤ s.length) &&
  s.data.any isLowerAscii && s.data.any isUpperAscii &&
  s.data.any isDigitAscii && s.data.any isPasswordSymbol

/-- The amended characterization of the policy, for every string: non-empty,
at least eight characters, and the part of the string before its first
line terminator has at least eight characters and contains at least one
character of each required class. -/
def passwordSpecAcceptsBeforeTerminator (s : String) : Bool :=
  (!(s == "")) && (8 ≤ s.length) &&
  (8 ≤ (s.data.takeWhile fun c => !lineTerminator c).length) &&
  (s.data.takeWhile fun c => !lineTerminator c).any isLowerAscii &&
  (s.data.takeWhile fun c => !lineTerminator c).any isUpperAscii &&
  (s.data.takeWhile fun c => !lineTerminator c).any isDigitAscii &&
  (s.data.takeWhile fun c => !lineTerminator c).any isPasswordSymbol

end PasswordPolicy

namespace AuthService

/-- **C1.** The claim says the inserted record's `registrationStep` is
`DONE` exactly when the provider reports the account confirmed and
`PENDING_CONFIRMATION` exactly when it reports it unconfirmed.  The
ternary in `_createNewUser` is inverted: a response with
`UserConfirmed = true` yields `PENDING_CONFIRMATION` and one with
`UserConfirmed = false` yields `DONE`.  (`subjectId` is indeed taken from
the response's `UserSub`.) -/
theorem createNewUser_step_inverted :
    (createNewUser ⟨"alice@example.com", "Abc123!@"⟩
        ⟨true, some "sub-1"⟩).registrationStep =
      UserRegistrationStepEnum.PENDING_CONFIRMATION ∧
    (createNewUser ⟨"alice@example.com", "Abc123!@"⟩
        ⟨false, some "sub-1"⟩).registrationStep =
      UserRegistrationStepEnum.DONE ∧
    (createNewUser ⟨"alice@example.com", "Abc123!@"⟩
        ⟨true, some "sub-1"⟩).sub = some "sub-1" :=
  ⟨rfl, rfl, rfl⟩

/-- **C2.** The claim says signup with a fresh email issues exactly one
create-account call and one insert.  On the code, the unawaited
duplicate-email guard is always truthy, so even with an empty store and a
previously unseen email, `signup` raises `DuplicateEmailException`, issues
zero create-account calls and inserts nothing. -/
theorem signup_fresh_email_makes_no_provider_call :
    checkIfEmailExists [] "new@user.example" = false ∧
    signup [] (Except.ok ⟨false, some "sub-2"⟩) ⟨"new@user.example", "Abc123!@"⟩ =
      (SignupOutcome.duplicateEmail, ⟨0, []⟩) :=
  ⟨rfl, rfl⟩

/-- **C3.** For every signup input whose email already has a record in the
store, `signup` fails with `DuplicateUser` and issues no create-account
call to the identity provider. -/
theorem signup_existing_email_duplicate (store : List UserRecord)
    (signUpResult : Except ProviderError SignUpCommandOutput)
    (input : SignupInput)
    (h : checkIfEmailExists store input.email = true) :
    (signup store signUpResult input).1 = SignupOutcome.duplicateEmail ∧
    (signup store signUpResult input).2.createAccountCalls = 0 ∧
    (signup store signUpResult input).2.insertedRecords = [] :=
  ⟨rfl, rfl, rfl⟩

/-- Witness for C3 at a concrete store holding the duplicate email. -/
theorem signup_existing_email_duplicate_witness :
    checkIfEmailExists
        [⟨"bob@example.com", UserRegistrationStepEnum.DONE, some "sub-3"⟩]
        "bob@example.com" = true ∧
    (signup [⟨"bob@example.com", UserRegistrationStepEnum.DONE, some "sub-3"⟩]
        (Except.ok ⟨false, some "sub-3"⟩)
        ⟨"bob@example.com", "Abc123!@"⟩).1 = SignupOutcome.duplicateEmail :=
  ⟨by decide,
    (signup_existing_email_duplicate
      [⟨"bob@example.com", UserRegistrationStepEnum.DONE, some "sub-3"⟩]
      (Except.ok ⟨false, some "sub-3"⟩)
      ⟨"bob@example.com", "Abc123!@"⟩ (by decide)).1⟩

/-- **C4.** For every store and every signup input, the duplicate-email
guard — the unawaited `_checkIfEmailExists` promise in boolean position —
evaluates truthy, so `signup` takes the `DuplicateUser` branch on every
call, issuing no provider call and inserting nothing, regardless of
whether a record with that email exists. -/
theorem signup_guard_always_truthy (store : List UserRecord)
    (signUpResult : Except ProviderError SignUpCommandOutput)
    (input : SignupInput) :
    (JSPromise.mk (checkIfEmailExists store input.email)).toBool = true ∧
      signup store signUpResult input = (SignupOutcome.duplicateEmail, ⟨0, []⟩) := by
  exact ⟨rfl, rfl⟩

/-- Witness for C4 at a concrete empty store and fresh email. -/
theorem signup_guard_always_truthy_witness :
    signup [] (Except.ok ⟨true, some "sub-4"⟩) ⟨"carol@example.com", "Abc123!@"⟩ =
      (SignupOutcome.duplicateEmail, ⟨0, []⟩) :=
  (signup_guard_always_truthy []
      (Except.ok ⟨true, some "sub-4"⟩) ⟨"carol@example.com", "Abc123!@"⟩).2

/-- **C5.** For every `confirmSignup` call: when the provider confirmation
succeeds and a matching record exists, the matching record's
`registrationStep` is set to `DONE` and nothing else is mutated; on any
failure of either step the store is untouched and the call resolves with a
`ConfirmationFailure` (`InvalidUpdateUserException`) *value* — no path
raises. -/
theorem confirmSignup_done_or_returned_error (store : List UserRecord)
    (confirmResult : Except ProviderError Unit) (input : ConfirmSignupInput) :
    (∀ u, confirmResult = Except.ok u →
      store.any (fun r => r.email == input.email) = true →
        confirmSignup store confirmResult input =
          (ConfirmSignupOutcome.ok,
            store.map fun r =>
              if r.email == input.email then
                { r with registrationStep := UserRegistrationStepEnum.DONE }
              else r)) ∧
    ((confirmSignup store confirmResult input).1 ≠ ConfirmSignupOutcome.ok →
      (∃ msg, (confirmSignup store confirmResult input).1 =
          ConfirmSignupOutcome.returnedError msg) ∧
      (confirmSignup store confirmResult input).2 = store) ∧
    (∀ msg, (confirmSignup store confirmResult input).1 ≠
        ConfirmSignupOutcome.raised msg) := by
  refine ⟨?_, ?_, ?_⟩
  · intro u hu hex
    subst hu
    simp [confirmSignup, updateUserAfterSignupConfirmation, hex]
  · intro hne
    match confirmResult with
    | Except.error e => exact ⟨⟨e.message, rfl⟩, rfl⟩
    | Except.ok u =>
        cases hb : store.any (fun r => r.email == input.email) with
        | true =>
            exact absurd
              (by simp [confirmSignup, updateUserAfterSignupConfirmation, hb]) hne
        | false =>
            constructor
            · refine ⟨"An operation failed because it depends on one or more records that were required but not found.", ?_⟩
              simp [confirmSignup, updateUserAfterSignupConfirmation, hb]
            · simp [confirmSignup, updateUserAfterSignupConfirmation, hb]
  · intro msg
    match confirmResult with
    | Except.error e => simp [confirmSignup]
    | Except.ok u =>
        cases hb : store.any (fun r => r.email == input.email) <;>
          simp [confirmSignup, updateUserAfterSignupConfirmation, hb]

/-- Witness for C5: a concrete successful confirmation moves the matching
record to `DONE` and leaves the other record untouched. -/
theorem confirmSignup_done_or_returned_error_witness :
    confirmSignup
        [⟨"dan@example.com", UserRegistrationStepEnum.PENDING_CONFIRMATION, some "sub-5"⟩,
         ⟨"eve@example.com", UserRegistrationStepEnum.PENDING_CONFIRMATION, some "sub-6"⟩]
        (Except.ok ()) ⟨"dan@example.com", "123456"⟩ =
      (ConfirmSignupOutcome.ok,
        [⟨"dan@example.com", UserRegistrationStepEnum.DONE, some "sub-5"⟩,
         ⟨"eve@example.com", UserRegistrationStepEnum.PENDING_CONFIRMATION, some "sub-6"⟩]) := by
  have h :=
    (confirmSignup_done_or_returned_error
        [⟨"dan@example.com", UserRegistrationStepEnum.PENDING_CONFIRMATION, some "sub-5"⟩,
         ⟨"eve@example.com", UserRegistrationStepEnum.PENDING_CONFIRMATION, some "sub-6"⟩]
        (Except.ok ()) ⟨"dan@example.com", "123456"⟩).1 () rfl (by decide)
  exact h.trans (by decide)

/-- **C6.** For every successful login response: `NEW_PASSWORD_REQUIRED`
yields only the challenge name and the initial response's session with no
associate-MFA-token call; `MFA_SETUP` issues exactly one
associate-MFA-token call (with the initial session) and the result's
session and secret code come from that second call's response; any other
or absent challenge yields the initial response's challenge name and
session with no further call. -/
theorem login_challenge_dispatch
    (assoc : Option String → AssociateSoftwareTokenCommandOutput)
    (resp : InitiateAuthCommandOutput) :
    (resp.ChallengeName = some ChallengeNameType.NEW_PASSWORD_REQUIRED →
      login assoc (Except.ok resp) =
        (LoginOutcome.ok
          ⟨some ChallengeNameType.NEW_PASSWORD_REQUIRED, resp.Session, none⟩,
          [])) ∧
    (resp.ChallengeName = some ChallengeNameType.MFA_SETUP →
      login assoc (Except.ok resp) =
        (LoginOutcome.ok
          ⟨some ChallengeNameType.MFA_SETUP, (assoc resp.Session).Session,
            (assoc resp.Session).SecretCode⟩,
          [resp.Session])) ∧
    (resp.ChallengeName ≠ some ChallengeNameType.NEW_PASSWORD_REQUIRED →
      resp.ChallengeName ≠ some ChallengeNameType.MFA_SETUP →
        login assoc (Except.ok resp) =
          (LoginOutcome.ok ⟨resp.ChallengeName, resp.Session, none⟩, [])) := by
  obtain ⟨cn, sess, ar⟩ := resp
  refine ⟨?_, ?_, ?_⟩
  · intro h
    cases h
    rfl
  · intro h
    cases h
    rfl
  · intro h1 h2
    cases cn with
    | none => rfl
    | some c =>
        cases c
        case NEW_PASSWORD_REQUIRED => exact absurd rfl h1
        case MFA_SETUP => exact absurd rfl h2
        all_goals rfl

/-- Witness for C6: a concrete `MFA_SETUP` login whose result carries the
second call's session and secret code, visibly different from the initial
response's session. -/
theorem login_challenge_dispatch_witness :
    login (fun _ => ⟨some "session-2", some "secret-1"⟩)
        (Except.ok ⟨some ChallengeNameType.MFA_SETUP, some "session-1", none⟩) =
      (LoginOutcome.ok
        ⟨some ChallengeNameType.MFA_SETUP, some "session-2", some "secret-1"⟩,
        [some "session-1"]) :=
  (login_challenge_dispatch (fun _ => ⟨some "session-2", some "secret-1"⟩)
      ⟨some ChallengeNameType.MFA_SETUP, some "session-1", none⟩).2.1 rfl

/-- **C7.** For every failed `confirmLogin` provider call:
`CodeMismatchException` or `ExpiredCodeException` fails with message
"Invalid code, please try again" and name `CodeMismatchException`;
`NotAuthorizedException` fails with message "Session expired, please try
again"; any other error name is rethrown unchanged. -/
theorem confirmLogin_error_reclassification (e : ProviderError) :
    ((e.name = "CodeMismatchException" ∨ e.name = "ExpiredCodeException") →
      confirmLogin (Except.error e) =
        ConfirmLoginOutcome.badRequest "Invalid code, please try again"
          "CodeMismatchException") ∧
    (e.name = "NotAuthorizedException" →
      confirmLogin (Except.error e) =
        ConfirmLoginOutcome.badRequest "Session expired, please try again"
          "NotAuthorizedException") ∧
    (e.name ≠ "CodeMismatchException" → e.name ≠ "ExpiredCodeException" →
      e.name ≠ "NotAuthorizedException" →
        confirmLogin (Except.error e) = ConfirmLoginOutcome.rethrown e) := by
  obtain ⟨n, m⟩ := e
  refine ⟨?_, ?_, ?_⟩
  · intro h
    rcases h with h | h <;> (cases h; rfl)
  · intro h
    cases h
    rfl
  · intro h1 h2 h3
    simp only [confirmLogin]
    rw [if_neg, if_neg]
    · simpa using h3
    · simpa using ⟨h1, h2⟩

/-- Witness for C7: a concrete `ExpiredCodeException` is reclassified to
the fixed invalid-code failure named `CodeMismatchException`. -/
theorem confirmLogin_error_reclassification_witness :
    confirmLogin (Except.error ⟨"ExpiredCodeException", "code expired"⟩) =
      ConfirmLoginOutcome.badRequest "Invalid code, please try again"
        "CodeMismatchException" :=
  (confirmLogin_error_reclassification
      ⟨"ExpiredCodeException", "code expired"⟩).1 (Or.inr rfl)

/-- **C9.** For every `forgotPassword` and `refreshToken` call, a provider
failure is propagated to the caller unchanged: the catch blocks rethrow
the very error that was caught. -/
theorem forgotPassword_refreshToken_passthrough (e : ProviderError) :
    forgotPassword (Except.error e) = Except.error e ∧
    refreshToken (Except.error e) = Except.error e :=
  ⟨rfl, rfl⟩

/-- **C10.** For every successful `confirmLogin` provider response, the
returned value is exactly the response's `AuthenticationResult` component;
two responses agreeing on that component yield the same outcome, so any
challenge name or session in the response is discarded. -/
theorem confirmLogin_success_projects_result
    (res other : RespondToAuthChallengeCommandOutput)
    (h : res.AuthenticationResult = other.AuthenticationResult) :
    confirmLogin (Except.ok res) =
      ConfirmLoginOutcome.ok res.AuthenticationResult ∧
    confirmLogin (Except.ok res) = confirmLogin (Except.ok other) :=
  ⟨rfl, by simp [confirmLogin, h]⟩

/-- Witness for C10: a response carrying a follow-up challenge and session
yields the same outcome as one carrying neither, since only the
`AuthenticationResult` survives. -/
theorem confirmLogin_success_projects_result_witness :
    confirmLogin (Except.ok
        ⟨some ChallengeNameType.SOFTWARE_TOKEN_MFA, some "session-3",
          some ⟨some "acc", some "id", some "ref", some 3600⟩⟩) =
      confirmLogin (Except.ok
        ⟨none, none, some ⟨some "acc", some "id", some "ref", some 3600⟩⟩) :=
  (confirmLogin_success_projects_result
      ⟨some ChallengeNameType.SOFTWARE_TOKEN_MFA, some "session-3",
        some ⟨some "acc", some "id", some "ref", some 3600⟩⟩
      ⟨none, none, some ⟨some "acc", some "id", some "ref", some 3600⟩⟩
      rfl).2

end AuthService

namespace PasswordPolicy

lemma string_length_eq_data (s : String) : s.length = s.data.length := rfl

lemma lookaheadHas_eq_any (p : Char → Bool) (cs : List Char)
    (h : ∀ c ∈ cs, lineTerminator c = false) :
    lookaheadHas p cs = cs.any p := by
  induction cs with
  | nil => rfl
  | cons c cs ih =>
      have hc := h c (List.mem_cons_self c cs)
      have hrest : ∀ x ∈ cs, lineTerminator x = false :=
        fun x hx => h x (List.mem_cons_of_mem c hx)
      simp [lookaheadHas, List.any_cons, hc, ih hrest]

lemma takeWhile_of_no_terminator (cs : List Char)
    (h : ∀ c ∈ cs, lineTerminator c = false) :
    cs.takeWhile (fun c => !lineTerminator c) = cs := by
  induction cs with
  | nil => rfl
  | cons c cs ih =>
      have hc := h c (List.mem_cons_self c cs)
      have hrest : ∀ x ∈ cs, lineTerminator x = false :=
        fun x hx => h x (List.mem_cons_of_mem c hx)
      simp [List.takeWhile_cons, hc, ih hrest]

lemma terminator_char_cases (c : Char) (h : lineTerminator c = true) :
    c = '\n' ∨ c = '\r' ∨ c = '\u2028' ∨ c = '\u2029' := by
  simpa only [lineTerminator, Bool.or_eq_true, decide_eq_true_eq, or_assoc] using h

lemma terminator_fails (p : Char → Bool)
    (h1 : p '\n' = false) (h2 : p '\r' = false)
    (h3 : p '\u2028' = false) (h4 : p '\u2029' = false) :
    ∀ c, lineTerminator c = true → p c = false := by
  intro c hc
  rcases terminator_char_cases c hc with h | h | h | h <;> subst h <;> assumption

lemma lookaheadHas_eq_any_takeWhile (p : Char → Bool)
    (hp : ∀ c, lineTerminator c = true → p c = false) (cs : List Char) :
    lookaheadHas p cs = (cs.takeWhile fun c => !lineTerminator c).any p := by
  induction cs with
  | nil => rfl
  | cons c cs ih =>
      cases hterm : lineTerminator c with
      | true => simp [lookaheadHas, List.takeWhile_cons, hterm, hp c hterm]
      | false => simp [lookaheadHas, List.takeWhile_cons, hterm, ih]

/-- **C8 counterexample.** The claim's "accepts iff non-empty, length ≥ 8
and contains one of each class" fails on the code: in the string
"AB12!@\na" (eight characters, one of each class present), the lone
lowercase letter sits after a newline, so the `.`-based lookaheads of the
pattern cannot reach it and `IsPassword` rejects while the claimed
characterization accepts. -/
theorem password_policy_iff_counterexample :
    passwordSpecAccepts "AB12!@\na" = true ∧
    IsPassword "AB12!@\na" = false := by
  constructor <;> decide

/-- **C8 (amended).** For every string, the password policy accepts exactly
when the string is non-empty, at least eight characters long, and the part
of the string before its first line terminator has at least eight
characters and contains at least one lowercase letter, one uppercase
letter, one digit and one symbol of `!@#$%^&*?()-_,=+`; on strings without
line terminators this coincides with the claim's characterization; in
particular "abc12345" is rejected and "Abc123!@" is accepted. -/
theorem password_policy_amended (s : String) :
    IsPassword s = passwordSpecAcceptsBeforeTerminator s ∧
    ((∀ c ∈ s.data, lineTerminator c = false) →
      IsPassword s = passwordSpecAccepts s) ∧
    IsPassword "abc12345" = false ∧
    IsPassword "Abc123!@" = true := by
  have hLower : ∀ c, lineTerminator c = true → isLowerAscii c = false :=
    terminator_fails isLowerAscii (by decide) (by decide) (by decide) (by decide)
  have hUpper : ∀ c, lineTerminator c = true → isUpperAscii c = false :=
    terminator_fails isUpperAscii (by decide) (by decide) (by decide) (by decide)
  have hDigit : ∀ c, lineTerminator c = true → isDigitAscii c = false :=
    terminator_fails isDigitAscii (by decide) (by decide) (by decide) (by decide)
  have hSymbol : ∀ c, lineTerminator c = true → isPasswordSymbol c = false :=
    terminator_fails isPasswordSymbol (by decide) (by decide) (by decide) (by decide)
  refine ⟨?_, ?_, by decide, by decide⟩
  · rw [Bool.eq_iff_iff]
    simp only [IsPassword, passwordSpecAcceptsBeforeTerminator,
      matchesPasswordPattern, lookaheadLen8,
      lookaheadHas_eq_any_takeWhile isLowerAscii hLower,
      lookaheadHas_eq_any_takeWhile isUpperAscii hUpper,
      lookaheadHas_eq_any_takeWhile isDigitAscii hDigit,
      lookaheadHas_eq_any_takeWhile isPasswordSymbol hSymbol,
      Bool.and_eq_true, decide_eq_true_eq]
    tauto
  · intro h
    rw [Bool.eq_iff_iff]
    simp only [IsPassword, passwordSpecAccepts, matchesPasswordPattern,
      lookaheadLen8, lookaheadHas_eq_any _ _ h, takeWhile_of_no_terminator _ h,
      string_length_eq_data, Bool.and_eq_true, decide_eq_true_eq]
    tauto

/-- Witness for C8 (amended), discharging the no-line-terminator hypothesis
of the second conjunct at the concrete string "Abc123!@". -/
theorem password_policy_amended_witness :
    IsPassword "Abc123!@" = passwordSpecAcceptsBeforeTerminator "Abc123!@" ∧
    IsPassword "Abc123!@" = passwordSpecAccepts "Abc123!@" ∧
    IsPassword "abc12345" = false :=
  ⟨(password_policy_amended "Abc123!@").1,
    (password_policy_amended "Abc123!@").2.1 (by decide),
    (password_policy_amended "Abc123!@").2.2.1⟩

end PasswordPolicy
